import Mathlib

/-!
Verification of the AgriWeather server core (src/api_server.py).

This file gives a shallow embedding, in Lean 4, of the reading-ingestion,
latest-state-cache, alert-derivation, aggregation, recommendation, history
and device-status logic of the repository, and proves (or refutes) the
frozen specification claims about it.

Modelling conventions:
* Python floats are modelled as exact rationals.  All numeric literals in
  the source (thresholds, defaults, the irrigation formula) are exactly
  representable, so the comparisons proved here agree with the float
  comparisons executed by the code.
* Python strings are modelled as Lean strings; Python compares strings
  lexicographically by code point, which is the order charsLt below
  computes on the underlying character list.
* json.loads is an external library call; it is modelled by an explicit
  decode parameter of type String to Option Reading, where none stands
  for a raised exception and some for a successfully parsed object,
  projected onto the numeric fields the core consumes (extra JSON keys
  are ignored by every consumer in the source).
* Each piece of process-wide per-device state (latest_readings, alerts)
  is modelled per device: the Python dicts never let two device keys
  interact, so one slot suffices for every claim, which all quantify per
  device.
* datetime values in get_device_status are modelled as integer seconds;
  timedelta(hours=1) is 3600.
-/

unseal Rat.add Rat.mul Rat.inv Rat.sub Rat.ofScientific List.merge List.mergeSort

/-! ## Lexicographic string order (Python string comparison)

Python compares strings by code point, left to right, shorter one first
on a tie.  Char.lt in Lean is exactly the code-point order, so the
following boolean comparison on the character lists computes the Python
comparison operator for strings. -/

def charsLt : List Char → List Char → Bool
  | [], [] => false
  | [], _ :: _ => true
  | _ :: _, [] => false
  | a :: as, b :: bs =>
    if a < b then true
    else if b < a then false
    else charsLt as bs

/-- Python comparison a < b on strings. -/
def strLt (a b : String) : Bool := charsLt a.data b.data

theorem charsLt_irrefl : ∀ a, charsLt a a = false := by
  intro a
  induction a with
  | nil => rfl
  | cons x xs ih => simp [charsLt, ih]

theorem charsLt_trans : ∀ a b c, charsLt a b = true → charsLt b c = true → charsLt a c = true := by
  intro a
  induction a with
  | nil =>
    intro b c hab hbc
    match b, c with
    | [], _ => simp [charsLt] at hab
    | y :: ys, [] => simp [charsLt] at hbc
    | y :: ys, z :: zs => simp [charsLt]
  | cons x xs ih =>
    intro b c hab hbc
    match b, c with
    | [], _ => simp [charsLt] at hab
    | y :: ys, [] => simp [charsLt] at hbc
    | y :: ys, z :: zs =>
      simp only [charsLt] at hab hbc ⊢
      rcases lt_trichotomy x y with hxy | hxy | hxy
      · rcases lt_trichotomy y z with hyz | hyz | hyz
        · simp [lt_trans hxy hyz]
        · subst hyz; simp [hxy]
        · rw [if_neg (lt_asymm hyz), if_pos hyz] at hbc; exact absurd hbc (by simp)
      · subst hxy
        rw [if_neg (lt_irrefl x)] at hab
        rw [if_neg (lt_irrefl x)] at hab
        rcases lt_trichotomy x z with hxz | hxz | hxz
        · simp [hxz]
        · subst hxz
          rw [if_neg (lt_irrefl x)] at hbc ⊢
          rw [if_neg (lt_irrefl x)] at hbc ⊢
          exact ih ys zs hab hbc
        · rw [if_neg (lt_asymm hxz), if_pos hxz] at hbc; exact absurd hbc (by simp)
      · rw [if_neg (lt_asymm hxy), if_pos hxy] at hab; exact absurd hab (by simp)

theorem charsLt_conn : ∀ a b, charsLt a b = false → charsLt b a = false → a = b := by
  intro a
  induction a with
  | nil =>
    intro b hab _
    match b with
    | [] => rfl
    | y :: ys => simp [charsLt] at hab
  | cons x xs ih =>
    intro b hab hba
    match b with
    | [] => simp [charsLt] at hba
    | y :: ys =>
      simp only [charsLt] at hab hba
      rcases lt_trichotomy x y with hxy | hxy | hxy
      · rw [if_pos hxy] at hab; exact absurd hab (by simp)
      · subst hxy
        rw [if_neg (lt_irrefl x)] at hab hba
        rw [if_neg (lt_irrefl x)] at hab hba
        rw [ih ys hab hba]
      · rw [if_pos hxy] at hba; exact absurd hba (by simp)

theorem strLt_irrefl (a : String) : strLt a a = false := charsLt_irrefl a.data

theorem strLt_trans {a b c : String} (hab : strLt a b = true) (hbc : strLt b c = true) :
    strLt a c = true := charsLt_trans a.data b.data c.data hab hbc

theorem strLt_conn {a b : String} (hab : strLt a b = false) (hba : strLt b a = false) :
    a = b := by
  have h := charsLt_conn a.data b.data hab hba
  cases a; cases b
  exact congrArg String.mk h

theorem strLt_asymm {a b : String} (h : strLt a b = true) : strLt b a = false := by
  by_contra hh
  have hba : strLt b a = true := by
    cases hv : strLt b a
    · exact absurd hv hh
    · rfl
  have hcc := strLt_trans h hba
  rw [strLt_irrefl] at hcc
  exact absurd hcc (by simp)

theorem strLt_le_trans {a b c : String} (hba : strLt b a = false) (hcb : strLt c b = false) :
    strLt c a = false := by
  cases h : strLt c a
  · rfl
  · exfalso
    cases hv : strLt a b
    · have hab : a = b := strLt_conn hv hba
      subst hab
      rw [h] at hcb
      exact absurd hcb (by simp)
    · have hcb2 := strLt_trans h hv
      rw [hcb2] at hcb
      exact absurd hcb (by simp)

theorem strLt_le_total (a b : String) : strLt a b = false ∨ strLt b a = false := by
  cases hv : strLt a b
  · exact Or.inl rfl
  · cases hw : strLt b a
    · exact Or.inr rfl
    · have hc := strLt_trans hv hw
      rw [strLt_irrefl] at hc
      exact absurd hc (by simp)

/-! ## Python string primitives used by the parser

blob_content.strip() and .split of a newline, and line.strip() for the
blank-line test, implemented on the character list.  Char.isWhitespace
covers the ASCII whitespace the shard contents contain. -/

/-- Python str.strip: drop leading and trailing whitespace. -/
def pyStrip (s : String) : String :=
  ⟨((s.data.dropWhile Char.isWhitespace).reverse.dropWhile Char.isWhitespace).reverse⟩

/-- Python str.split on a newline separator, on character lists. -/
def splitNl : List Char → List (List Char)
  | [] => [[]]
  | c :: cs =>
    let r := splitNl cs
    if c = '\n' then [] :: r
    else
      match r with
      | [] => [[c]]
      | h :: t => (c :: h) :: t

/-- Python s.split of a newline: one entry per line. -/
def pySplitLines (s : String) : List String := (splitNl s.data).map (fun l => ⟨l⟩)

/-! ## Data model -/

/-- A sensor reading: the projection of one line-delimited JSON object
onto the fields the core consumes.  Every field is optional on input,
exactly as in the source, where each consumer calls reading.get with its
own default.  Extra JSON keys (device_id, location, ...) are carried by
readings in the source but never read by the logic under verification,
so they are not represented. -/
structure Reading where
  timestamp : Option String
  temperature : Option ℚ
  humidity : Option ℚ
  rainfall : Option ℚ
  soil_moisture : Option ℚ
  wind_speed : Option ℚ
deriving DecidableEq

/-- reading.get of a timestamp with default empty string, the form every
timestamp consumer in the source uses. -/
def readingTs (r : Reading) : String := r.timestamp.getD ""

/-! ## Reading Parser (parse_blob_data, api_server.py lines 82-95)

The source decodes the blob bytes, strips, splits on newlines, skips
blank lines and json.loads the rest; any exception makes the whole shard
yield the empty list.  decode models json.loads on one line: none is a
raised exception. -/

/-- The line loop of parse_blob_data: left to right, skipping blank
lines; a decode failure anywhere aborts the whole parse (the caught
exception). -/
def parseLines (decode : String → Option Reading) : List String → Option (List Reading)
  | [] => some []
  | l :: ls =>
    if pyStrip l = "" then parseLines decode ls
    else
      match decode l with
      | none => none
      | some r => (parseLines decode ls).map (fun rest => r :: rest)

/-- parse_blob_data: strip, split on newlines, parse each non-blank
line; on any failure return the empty list. -/
def parse_blob_data (decode : String → Option Reading) (blob_content : String) : List Reading :=
  (parseLines decode (pySplitLines (pyStrip blob_content))).getD []

/-- The non-blank lines of a shard, in input order (the lines the parser
attempts to decode). -/
def nonBlankLines (blob_content : String) : List String :=
  (pySplitLines (pyStrip blob_content)).filter (fun l => pyStrip l ≠ "")

/-! ## Alert Engine (check_conditions_and_generate_alerts, lines 98-194)

The alert message strings are human-readable interpolations of the
triggering value (one-decimal float formatting); they carry no logic and
no claim mentions their text, so the Alert record keeps the type,
severity, timestamp, value and threshold fields of the source dict and
omits the message. -/

inductive AlertType where
  | frost
  | low_temperature
  | high_temperature
  | low_soil_moisture
  | high_wind
  | low_humidity
deriving DecidableEq

inductive AlertSeverity where
  | critical
  | warning
  | info
deriving DecidableEq

structure Alert where
  type : AlertType
  severity : AlertSeverity
  timestamp : String
  value : ℚ
  threshold : ℚ
deriving DecidableEq

/-- The condition cascade of check_conditions_and_generate_alerts: the
new_alerts list produced for one reading.  Defaults as in the source:
temperature 0, soil_moisture 50, wind_speed 0, humidity 50.  Frost and
low-temperature are an if/elif pair; the remaining conditions are
independent ifs, appended in source order. -/
def generate_new_alerts (reading : Reading) (timestamp : String) : List Alert :=
  let temperature := reading.temperature.getD 0
  let soil_moisture := reading.soil_moisture.getD 50
  let wind_speed := reading.wind_speed.getD 0
  let humidity := reading.humidity.getD 50
  (if temperature < 0 then [⟨.frost, .critical, timestamp, temperature, 0⟩]
   else if temperature < 5 then [⟨.low_temperature, .warning, timestamp, temperature, 5⟩]
   else []) ++
  (if temperature > 35 then [⟨.high_temperature, .warning, timestamp, temperature, 35⟩] else []) ++
  (if soil_moisture < 30 then [⟨.low_soil_moisture, .warning, timestamp, soil_moisture, 30⟩] else []) ++
  (if wind_speed > 40 then [⟨.high_wind, .warning, timestamp, wind_speed, 40⟩] else []) ++
  (if humidity < 20 then [⟨.low_humidity, .info, timestamp, humidity, 20⟩] else [])

/-- Python l[-n:]: the last n entries of a list (all of it when shorter).
Used for the alert-history truncation alerts_list[-50:]. -/
def lastN (n : Nat) (l : List α) : List α := l.drop (l.length - n)

/-- check_conditions_and_generate_alerts, viewed at one device slot of
the alerts dict: extend the history with the new alerts of this reading
and keep the last 50.  The source also returns early on a falsy (empty
dict) reading, leaving the history untouched; an empty dict is not
distinguishable from an object without the consumed keys in this field
projection, and no claim depends on that path. -/
def check_conditions_and_generate_alerts (alerts_list : List Alert) (reading : Reading)
    (timestamp : String) : List Alert :=
  lastN 50 (alerts_list ++ generate_new_alerts reading timestamp)

/-! ## Latest-State Cache and its two writers (lines 236-248 and 329-362)

latest_readings is a per-device dict; the cache of one device is an
Option Reading.  The Poller writes it through the compare by timestamp;
get_current_reading writes it only when the slot is empty. -/

/-- latest_readings.get(device_id, empty).get of a timestamp with
default empty string. -/
def cacheTs (cache : Option Reading) : String :=
  match cache with
  | none => ""
  | some r => readingTs r

/-- The sort order of all_readings.sort by timestamp key: Python list
sort is a stable sort comparing keys with the less-than operator, which
a stable merge sort over this boolean relation reproduces exactly. -/
def readingLe (a b : Reading) : Bool := !(strLt (readingTs b) (readingTs a))

/-- One device slot of a Poller tick (lines 236-248): concatenate every
parsed reading of the device, sort by timestamp, take the last, and
update the cache when the new timestamp is greater than the cached one
or the cached one is empty.  The all_readings argument stands for the
concatenation of the parsed shards the tick gathered for the device. -/
def poll_device_update (all_readings : List Reading) (cache : Option Reading) : Option Reading :=
  match (all_readings.mergeSort readingLe).getLast? with
  | none => cache
  | some latest =>
    if strLt (cacheTs cache) (readingTs latest) || (cacheTs cache = "") then some latest
    else cache

/-- A stored shard as get_current_reading sees it: a last-modified stamp
(integer, only its order matters) and raw content. -/
structure Blob where
  lastModified : Int
  content : String
deriving DecidableEq

/-- Python max over blobs keyed by last_modified: first maximum wins. -/
def maxByLastModified : List Blob → Option Blob
  | [] => none
  | b :: bs => some (bs.foldl (fun acc x => if acc.lastModified < x.lastModified then x else acc) b)

/-- get_current_reading (lines 329-362), restricted to its cache
effect: with a cached entry it returns it unchanged; otherwise it reads
the most recently modified shard and caches the final parsed
reading (the readings list is not sorted on this path).  Empty store or
empty parse leave the cache empty (the 404 paths). -/
def get_current_reading (decode : String → Option Reading) (blobs : List Blob)
    (cache : Option Reading) : Option Reading :=
  match cache with
  | some _ => cache
  | none =>
    match maxByLastModified blobs with
    | none => cache
    | some latest_blob =>
      match (parse_blob_data decode latest_blob.content).getLast? with
      | some latest => some latest
      | none => cache

/-- The operations that write the Latest-State Cache. -/
inductive CacheOp where
  | poll (all_readings : List Reading)
  | fetch (decode : String → Option Reading) (blobs : List Blob)

def cacheStep (cache : Option Reading) : CacheOp → Option Reading
  | .poll rs => poll_device_update rs cache
  | .fetch decode blobs => get_current_reading decode blobs cache

def cacheRun (cache : Option Reading) (ops : List CacheOp) : Option Reading :=
  ops.foldl cacheStep cache

/-- The timestamps an operation observes: every parsed reading the
Poller gathered, respectively every reading parsed from the shard the
direct fetch selected. -/
def opObservedTs : CacheOp → List String
  | .poll rs => rs.map readingTs
  | .fetch decode blobs =>
    match maxByLastModified blobs with
    | none => []
    | some latest_blob => (parse_blob_data decode latest_blob.content).map readingTs

/-! ## Aggregator (get_aggregated_data, lines 419-475) -/

/-- Python round at two decimal places: round-half-even of the scaled
value.  Floats are modelled as exact rationals, so this is the exact
counterpart of round(x, 2) on the representable values involved. -/
def roundHalfEven (q : ℚ) : ℤ :=
  let f := ⌊q⌋
  let r := q - f
  if r < 1/2 then f
  else if 1/2 < r then f + 1
  else if f % 2 = 0 then f else f + 1

def round2 (q : ℚ) : ℚ := (roundHalfEven (q * 100) : ℚ) / 100

/-- Python min over a nonempty list (the empty case is unreachable:
every call site is guarded). -/
def pyListMin : List ℚ → ℚ
  | [] => 0
  | x :: xs => xs.foldl min x

/-- Python max over a nonempty list. -/
def pyListMax : List ℚ → ℚ
  | [] => 0
  | x :: xs => xs.foldl max x

structure FieldStats where
  min : ℚ
  max : ℚ
  avg : ℚ
deriving DecidableEq

structure Aggregated where
  device_id : String
  period : String
  temperature : FieldStats
  humidity : FieldStats
  rainfall_total : ℚ
  rainfall_avg : ℚ
  readings_count : Nat
deriving DecidableEq

/-- The blob-gathering loop shared by the aggregation endpoint: parse
every shard of the device and concatenate the readings in listing
order. -/
def gather_readings (decode : String → Option Reading) (blobContents : List String) :
    List Reading :=
  blobContents.foldl (fun acc c => acc ++ parse_blob_data decode c) []

/-- The statistics block of get_aggregated_data over the gathered
readings: per field, the list comprehension keeps exactly the readings
carrying that field (reading.get never sees a missing key there), and
min, max and averages are guarded by emptiness of that per-field
list.  rainfall total is rounded unconditionally, as in the source. -/
def aggregate_readings (device_id period : String) (all_readings : List Reading) : Aggregated :=
  let temps := all_readings.filterMap (fun r => r.temperature)
  let humidities := all_readings.filterMap (fun r => r.humidity)
  let rainfalls := all_readings.filterMap (fun r => r.rainfall)
  { device_id := device_id
    period := period
    temperature :=
      { min := if temps = [] then 0 else round2 (pyListMin temps)
        max := if temps = [] then 0 else round2 (pyListMax temps)
        avg := if temps = [] then 0 else round2 (temps.sum / temps.length) }
    humidity :=
      { min := if humidities = [] then 0 else round2 (pyListMin humidities)
        max := if humidities = [] then 0 else round2 (pyListMax humidities)
        avg := if humidities = [] then 0 else round2 (humidities.sum / humidities.length) }
    rainfall_total := round2 rainfalls.sum
    rainfall_avg := if rainfalls = [] then 0 else round2 (rainfalls.sum / rainfalls.length)
    readings_count := all_readings.length }

/-- get_aggregated_data: gather all shards of the device; the 404 "No
data found" error is raised exactly when the gathered reading list is
empty, and the statistics are computed otherwise. -/
def get_aggregated_data (decode : String → Option Reading) (device_id period : String)
    (blobContents : List String) : Except String Aggregated :=
  let all_readings := gather_readings decode blobContents
  if all_readings = [] then .error "No data found"
  else .ok (aggregate_readings device_id period all_readings)

/-- Everything of an aggregation result except the echoed period
label. -/
def aggregatedData (a : Aggregated) :
    String × FieldStats × FieldStats × ℚ × ℚ × Nat :=
  (a.device_id, a.temperature, a.humidity, a.rainfall_total, a.rainfall_avg, a.readings_count)

/-! ## Recommendation Engine (get_irrigation_recommendation, lines 478-529) -/

structure IrrigationRecommendation where
  crop_type : String
  soil_moisture : ℚ
  temperature : ℚ
  rainfall : ℚ
  humidity : ℚ
  recommendation : String
  needs_irrigation : Bool
  suggested_water_amount_liters : ℚ
deriving DecidableEq

/-- The decision cascade of get_irrigation_recommendation over the
cached reading of the device (the current dict): needs_irrigation,
recommendation text and the unrounded water_amount local. -/
def irrigation_decision (soil_moisture temperature rainfall : ℚ) : Bool × String × ℚ :=
  if soil_moisture < 30 then
    (true, "Irrigation recommended - soil moisture is low", 10 + (30 - soil_moisture) * 0.5)
  else if soil_moisture < 40 ∧ temperature > 25 then
    (true, "Light irrigation recommended - high temperature and moderate soil moisture", 5)
  else if rainfall > 5 then
    (false, "Recent rainfall detected - no irrigation needed", 0)
  else
    (false, "Soil moisture levels are adequate", 0)

/-- get_irrigation_recommendation on the cached reading: defaults
soil_moisture 50, temperature 20, rainfall 0, humidity 50 as in the
source; the response echoes crop_type and the consumed current
conditions, and rounds the suggested water amount to two decimals. -/
def get_irrigation_recommendation (current : Reading) (crop_type : String) :
    IrrigationRecommendation :=
  let soil_moisture := current.soil_moisture.getD 50
  let temperature := current.temperature.getD 20
  let rainfall := current.rainfall.getD 0
  let humidity := current.humidity.getD 50
  let d := irrigation_decision soil_moisture temperature rainfall
  { crop_type := crop_type
    soil_moisture := soil_moisture
    temperature := temperature
    rainfall := rainfall
    humidity := humidity
    recommendation := d.2.1
    needs_irrigation := d.1
    suggested_water_amount_liters := round2 d.2.2 }

/-! ## Device status (get_device_status, lines 532-558) -/

inductive DeviceStatus where
  | online
  | offline
  | unknown
deriving DecidableEq

/-- get_device_status for a registered device.  parseIso models
datetime.fromisoformat applied to the timestamp string after the Z
replacement, as integer epoch seconds; none is a raised exception (which
the bare except of the source turns into the unknown status, as it also
does when the cached reading has no timestamp).  now minus the parsed
time is the computed time_diff, compared strictly with one hour.  The
returned pair is (status, last_seen). -/
def get_device_status (cache : Option Reading) (parseIso : String → Option Int) (now : Int) :
    DeviceStatus × Option String :=
  match cache with
  | none => (.unknown, none)
  | some r =>
    let last_seen := r.timestamp
    let status : DeviceStatus :=
      match last_seen with
      | none => .unknown
      | some s =>
        match parseIso s with
        | none => .unknown
        | some t => if now - t < 3600 then .online else .offline
    (status, last_seen)

/-! ## History (get_history, lines 365-416) -/

/-- A stored shard with its blob name, as the history endpoint lists
them; the listing order of the store is the list order. -/
structure BlobEntry where
  name : String
  content : String
deriving DecidableEq

/-- Membership test for a leading character sequence, on character
lists: the Python startswith used by the prefix-scoped blob listing. -/
def leadsWith : List Char → List Char → Bool
  | [], _ => true
  | _ :: _, [] => false
  | p :: ps, c :: cs => p = c && leadsWith ps cs

def strStartsWith (s pth : String) : Bool := leadsWith pth.data s.data

/-- from_date[:10].replace of minus signs by slashes: the date-derived
shard path component the history endpoint appends when from is given.
Slicing is per code point and the replacement is one character for one
character, so a character-list map computes it. -/
def dayDir (from_date : String) : String :=
  ⟨(from_date.data.take 10).map (fun c => if c = '-' then '/' else c)⟩

/-- The timestamp-range filter of the history loop: a reading is kept
unless from is given and its timestamp is below it, or to is given and
its timestamp is above it (missing timestamps read as the empty
string). -/
def inHistoryRange (from_date to_date : Option String) (t : String) : Bool :=
  (match from_date with
   | some f => !(strLt t f)
   | none => true) &&
  (match to_date with
   | some td => !(strLt td t)
   | none => true)

/-- The per-blob body of the history loop: parse the shard and apply
the range filter when either bound is given. -/
def history_blob_readings (decode : String → Option Reading)
    (from_date to_date : Option String) (b : BlobEntry) : List Reading :=
  let readings := parse_blob_data decode b.content
  if from_date.isSome || to_date.isSome then
    readings.filter (fun r => inHistoryRange from_date to_date (readingTs r))
  else readings

/-- The all_readings accumulation of get_history: list the blobs of the
device prefix (narrowed by the from-date day directory when from is
given), parse each, apply the range filter when either bound is given,
and concatenate. -/
def history_gathered (decode : String → Option Reading) (device_id : String)
    (from_date to_date : Option String) (store : List BlobEntry) : List Reading :=
  let pth := device_id ++ "/" ++
    (match from_date with
     | none => ""
     | some f => dayDir f ++ "/")
  let blobs := store.filter (fun b => strStartsWith b.name pth)
  blobs.foldl (fun acc b => acc ++ history_blob_readings decode from_date to_date b) []

/-- Python l[-limit:] for an arbitrary integer limit (the limit query
parameter is parsed with int): for positive limit the last limit
entries, for limit zero the whole list, for negative limit a slice
dropping the first -limit entries. -/
def pySliceLast (limit : Int) (l : List α) : List α :=
  if 0 < limit then l.drop (l.length - limit.toNat)
  else if limit = 0 then l
  else l.drop (-limit).toNat

/-- get_history: gather, sort by timestamp (stable ascending), return
the last limit readings. -/
def get_history (decode : String → Option Reading) (device_id : String)
    (from_date to_date : Option String) (limit : Int) (store : List BlobEntry) : List Reading :=
  pySliceLast limit ((history_gathered decode device_id from_date to_date store).mergeSort readingLe)

/-! ## Concrete sample data for witnesses and counterexamples -/

def emptyReading : Reading := ⟨none, none, none, none, none, none⟩

def tsReading (t : String) : Reading := { emptyReading with timestamp := some t }

def tempReading (q : ℚ) : Reading := { emptyReading with temperature := some q }

def soilReading (q : ℚ) : Reading := { emptyReading with soil_moisture := some q }

def windReading (q : ℚ) : Reading := { emptyReading with wind_speed := some q }

def humReading (q : ℚ) : Reading := { emptyReading with humidity := some q }

/-- A concrete stand-in for json.loads over a fixed test vocabulary of
lines. -/
def sampleDecode : String → Option Reading :=
  fun l =>
    if l = "p" then some (tsReading "2025-01-01T00:00:00Z")
    else if l = "q" then some (tsReading "2025-01-02T00:00:00Z")
    else if l = "x" then some (tempReading 7)
    else none

/-! ## C2: alert threshold boundaries -/

/-- C2 counterexample: a reading with temperature exactly 0 triggers the
low-temperature alert and not the frost alert, contradicting the claim
that 0 triggers frost: the frost guard of the source is the strict
comparison temperature < 0 and the elif branch catches 0 < 5. -/
theorem C2_counterexample :
    AlertType.frost ∉ (generate_new_alerts (tempReading 0) "T").map Alert.type ∧
    AlertType.low_temperature ∈ (generate_new_alerts (tempReading 0) "T").map Alert.type := by
  decide

/-- C2 (amended): temperature exactly 0 triggers the low-temperature
alert and not frost; temperature exactly 5 and exactly 35 trigger no
temperature alert; soil_moisture exactly 30, wind_speed exactly 40 and
humidity exactly 20 do not trigger their respective alert (strict
inequalities); temperature -0.01 triggers frost alone and 35.01 triggers
high-temperature alone. -/
theorem C2_threshold_boundaries :
    (generate_new_alerts (tempReading 0) "T").map Alert.type = [AlertType.low_temperature] ∧
    (generate_new_alerts (tempReading 5) "T").map Alert.type = [] ∧
    (generate_new_alerts (tempReading 35) "T").map Alert.type = [] ∧
    AlertType.low_soil_moisture ∉ (generate_new_alerts (soilReading 30) "T").map Alert.type ∧
    AlertType.high_wind ∉ (generate_new_alerts (windReading 40) "T").map Alert.type ∧
    AlertType.low_humidity ∉ (generate_new_alerts (humReading 20) "T").map Alert.type ∧
    (generate_new_alerts (tempReading (-0.01)) "T").map Alert.type = [AlertType.frost] ∧
    (generate_new_alerts (tempReading 35.01) "T").map Alert.type = [AlertType.high_temperature] := by
  decide

/-! ## C3: defaults substituted for absent fields -/

/-- C3 counterexample: the Recommendation Engine reads an absent
temperature as 20, not 0 — the consumed value is echoed in the
current_conditions block of the response. -/
theorem C3_counterexample :
    (get_irrigation_recommendation emptyReading "general").temperature = 20 ∧
    ((20 : ℚ) ≠ 0) := by
  decide

/-- C3 (amended): the Alert Engine substitutes temperature 0,
humidity 50, soil moisture 50 and wind speed 0 for absent fields; the
Recommendation Engine substitutes soil moisture 50, rainfall 0,
humidity 50 — but temperature 20, not 0; the Aggregator substitutes no
default at all: a reading absent a field is simply excluded from the
statistics of that field. -/
theorem C3_consumption_defaults (r : Reading) (ct ts : String) :
    (r.temperature = none →
      generate_new_alerts r ts = generate_new_alerts { r with temperature := some 0 } ts) ∧
    (r.humidity = none →
      generate_new_alerts r ts = generate_new_alerts { r with humidity := some 50 } ts) ∧
    (r.soil_moisture = none →
      generate_new_alerts r ts = generate_new_alerts { r with soil_moisture := some 50 } ts) ∧
    (r.wind_speed = none →
      generate_new_alerts r ts = generate_new_alerts { r with wind_speed := some 0 } ts) ∧
    (r.temperature = none →
      get_irrigation_recommendation r ct =
        get_irrigation_recommendation { r with temperature := some 20 } ct) ∧
    (r.soil_moisture = none →
      get_irrigation_recommendation r ct =
        get_irrigation_recommendation { r with soil_moisture := some 50 } ct) ∧
    (r.rainfall = none →
      get_irrigation_recommendation r ct =
        get_irrigation_recommendation { r with rainfall := some 0 } ct) ∧
    (r.humidity = none →
      get_irrigation_recommendation r ct =
        get_irrigation_recommendation { r with humidity := some 50 } ct) ∧
    (r.temperature = none → ∀ (all : List Reading) (dev p : String),
      (aggregate_readings dev p (all ++ [r])).temperature =
        (aggregate_readings dev p all).temperature) := by
  refine ⟨?_, ?_, ?_, ?_, ?_, ?_, ?_, ?_, ?_⟩ <;> intro h
  · simp [generate_new_alerts, h]
  · simp [generate_new_alerts, h]
  · simp [generate_new_alerts, h]
  · simp [generate_new_alerts, h]
  · simp [get_irrigation_recommendation, h]
  · simp [get_irrigation_recommendation, h]
  · simp [get_irrigation_recommendation, h]
  · simp [get_irrigation_recommendation, h]
  · intro all dev p
    simp [aggregate_readings, List.filterMap_append, h]

/-- C3 witness: at the all-absent reading, the Alert Engine result
coincides with the temperature-0 substitution and the Recommendation
Engine result with the temperature-20 substitution. -/
theorem C3_consumption_defaults_witness :
    generate_new_alerts emptyReading "T" =
      generate_new_alerts { emptyReading with temperature := some 0 } "T" ∧
    get_irrigation_recommendation emptyReading "general" =
      get_irrigation_recommendation { emptyReading with temperature := some 20 } "general" := by
  have h := C3_consumption_defaults emptyReading "general" "T"
  exact ⟨h.1 rfl, h.2.2.2.2.1 rfl⟩

/-! ## C4: irrigation decision table -/

/-- C4: the irrigation rules apply in first-match-wins order with the
documented outcomes, and crop_type is echoed without influencing any
output. -/
theorem C4_irrigation_rules (r : Reading) (ct : String) :
    (r.soil_moisture.getD 50 < 30 →
      (get_irrigation_recommendation r ct).needs_irrigation = true ∧
      (get_irrigation_recommendation r ct).suggested_water_amount_liters =
        round2 (10 + (30 - r.soil_moisture.getD 50) * 0.5) ∧
      (get_irrigation_recommendation r ct).recommendation =
        "Irrigation recommended - soil moisture is low") ∧
    (¬ r.soil_moisture.getD 50 < 30 → r.soil_moisture.getD 50 < 40 →
        r.temperature.getD 20 > 25 →
      (get_irrigation_recommendation r ct).needs_irrigation = true ∧
      (get_irrigation_recommendation r ct).suggested_water_amount_liters = 5 ∧
      (get_irrigation_recommendation r ct).recommendation =
        "Light irrigation recommended - high temperature and moderate soil moisture") ∧
    (¬ r.soil_moisture.getD 50 < 30 →
        ¬ (r.soil_moisture.getD 50 < 40 ∧ r.temperature.getD 20 > 25) →
        r.rainfall.getD 0 > 5 →
      (get_irrigation_recommendation r ct).needs_irrigation = false ∧
      (get_irrigation_recommendation r ct).suggested_water_amount_liters = 0 ∧
      (get_irrigation_recommendation r ct).recommendation =
        "Recent rainfall detected - no irrigation needed") ∧
    (¬ r.soil_moisture.getD 50 < 30 →
        ¬ (r.soil_moisture.getD 50 < 40 ∧ r.temperature.getD 20 > 25) →
        ¬ r.rainfall.getD 0 > 5 →
      (get_irrigation_recommendation r ct).needs_irrigation = false ∧
      (get_irrigation_recommendation r ct).suggested_water_amount_liters = 0 ∧
      (get_irrigation_recommendation r ct).recommendation =
        "Soil moisture levels are adequate") ∧
    (get_irrigation_recommendation r ct).crop_type = ct ∧
    (∀ ct2, get_irrigation_recommendation r ct2 =
      { get_irrigation_recommendation r ct with crop_type := ct2 }) := by
  refine ⟨?_, ?_, ?_, ?_, rfl, fun ct2 => rfl⟩
  · intro h1
    simp [get_irrigation_recommendation, irrigation_decision, if_pos h1]
  · intro h1 h2 h3
    have hc : r.soil_moisture.getD 50 < 40 ∧ r.temperature.getD 20 > 25 := ⟨h2, h3⟩
    simp only [get_irrigation_recommendation, irrigation_decision, if_neg h1, if_pos hc]
    refine ⟨by first | rfl | trivial, by decide, by first | rfl | trivial⟩
  · intro h1 h2 h3
    simp only [get_irrigation_recommendation, irrigation_decision, if_neg h1, if_neg h2,
      if_pos h3]
    refine ⟨by first | rfl | trivial, by decide, by first | rfl | trivial⟩
  · intro h1 h2 h3
    simp only [get_irrigation_recommendation, irrigation_decision, if_neg h1, if_neg h2,
      if_neg h3]
    refine ⟨by first | rfl | trivial, by decide, by first | rfl | trivial⟩

/-- C4 witness: soil moisture 25 yields irrigation with 12.5 litres (the
first rule), soil moisture 35 with temperature 28 yields the fixed 5
litres (the second rule), and the crop label never changes the
outputs. -/
theorem C4_irrigation_rules_witness :
    (get_irrigation_recommendation (soilReading 25) "wheat").needs_irrigation = true ∧
    (get_irrigation_recommendation (soilReading 25) "wheat").suggested_water_amount_liters
      = 12.5 ∧
    (get_irrigation_recommendation { soilReading 35 with temperature := some 28 }
        "corn").suggested_water_amount_liters = 5 ∧
    get_irrigation_recommendation (soilReading 25) "rice" =
      { get_irrigation_recommendation (soilReading 25) "wheat" with crop_type := "rice" } := by
  have h1 := (C4_irrigation_rules (soilReading 25) "wheat").1 (by decide)
  have h2 := (C4_irrigation_rules { soilReading 35 with temperature := some 28 } "corn").2.1
    (by decide) (by decide) (by decide)
  have h3 := (C4_irrigation_rules (soilReading 25) "wheat").2.2.2.2.2 "rice"
  refine ⟨h1.1, ?_, h2.2.1, h3⟩
  rw [h1.2.1]
  decide

/-! ## C9: device status -/

/-- C9: the status is online exactly when the cached timestamp parses
and its age (now minus parsed time) is strictly below one hour, offline
exactly when it parses with age at least one hour, and unknown with no
cached reading, a missing timestamp, or an unparsable timestamp; in
particular an age of 59 minutes gives online and an age of 61 minutes
gives offline. -/
theorem C9_device_status (cache : Option Reading) (parseIso : String → Option Int) (now : Int) :
    ((get_device_status cache parseIso now).1 = .online ↔
      ∃ r s t, cache = some r ∧ r.timestamp = some s ∧ parseIso s = some t ∧ now - t < 3600) ∧
    ((get_device_status cache parseIso now).1 = .offline ↔
      ∃ r s t, cache = some r ∧ r.timestamp = some s ∧ parseIso s = some t ∧ 3600 ≤ now - t) ∧
    (cache = none → (get_device_status cache parseIso now).1 = .unknown) ∧
    (∀ r, cache = some r → r.timestamp = none →
      (get_device_status cache parseIso now).1 = .unknown) ∧
    (∀ r s, cache = some r → r.timestamp = some s → parseIso s = none →
      (get_device_status cache parseIso now).1 = .unknown) ∧
    (∀ r s t, cache = some r → r.timestamp = some s → parseIso s = some t →
      (now - t = 3540 → (get_device_status cache parseIso now).1 = .online) ∧
      (now - t = 3660 → (get_device_status cache parseIso now).1 = .offline)) := by
  cases cache with
  | none =>
    refine ⟨?_, ?_, ?_, ?_, ?_, ?_⟩ <;> simp [get_device_status]
  | some r =>
    cases hts : r.timestamp with
    | none =>
      refine ⟨?_, ?_, ?_, ?_, ?_, ?_⟩ <;> try simp [get_device_status, hts]
      intro r1 s t h0 h1 h2
      subst h0
      rw [hts] at h1
      exact Option.noConfusion h1
    | some s =>
      cases hp : parseIso s with
      | none =>
        refine ⟨?_, ?_, ?_, ?_, ?_, ?_⟩ <;> try simp [get_device_status, hts, hp]
        intro r1 s1 t h0 h1 h2
        subst h0
        rw [hts] at h1
        injection h1 with h1
        subst h1
        rw [hp] at h2
        exact Option.noConfusion h2
      | some t =>
        have hstat : (get_device_status (some r) parseIso now).1 =
            if now - t < 3600 then DeviceStatus.online else DeviceStatus.offline := by
          simp [get_device_status, hts, hp]
        refine ⟨?_, ?_, ?_, ?_, ?_, ?_⟩
        · rw [hstat]
          constructor
          · intro ho
            by_cases hlt : now - t < 3600
            · exact ⟨r, s, t, rfl, hts, hp, hlt⟩
            · rw [if_neg hlt] at ho
              exact DeviceStatus.noConfusion ho
          · rintro ⟨r1, s1, t1, h0, h1, h2, h3⟩
            injection h0 with h0
            subst h0
            rw [hts] at h1
            injection h1 with h1
            subst h1
            rw [hp] at h2
            injection h2 with h2
            subst h2
            rw [if_pos h3]
        · rw [hstat]
          constructor
          · intro ho
            by_cases hlt : now - t < 3600
            · rw [if_pos hlt] at ho
              exact DeviceStatus.noConfusion ho
            · exact ⟨r, s, t, rfl, hts, hp, by omega⟩
          · rintro ⟨r1, s1, t1, h0, h1, h2, h3⟩
            injection h0 with h0
            subst h0
            rw [hts] at h1
            injection h1 with h1
            subst h1
            rw [hp] at h2
            injection h2 with h2
            subst h2
            rw [if_neg (by omega)]
        · intro hc
          exact Option.noConfusion hc
        · intro r1 h0 h1
          injection h0 with h0
          subst h0
          rw [hts] at h1
          exact Option.noConfusion h1
        · intro r1 s1 h0 h1 h2
          injection h0 with h0
          subst h0
          rw [hts] at h1
          injection h1 with h1
          subst h1
          rw [hp] at h2
          exact Option.noConfusion h2
        · intro r1 s1 t1 h0 h1 h2
          injection h0 with h0
          subst h0
          rw [hts] at h1
          injection h1 with h1
          subst h1
          rw [hp] at h2
          injection h2 with h2
          subst h2
          rw [hstat]
          constructor
          · intro hage
            rw [if_pos (by omega)]
          · intro hage
            rw [if_neg (by omega)]

/-- C9 witness: with a parsable cached timestamp, age 3540 seconds (59
minutes) gives online and age 3660 seconds (61 minutes) gives offline;
an unparsable timestamp gives unknown. -/
theorem C9_device_status_witness :
    (get_device_status (some (tsReading "T")) (fun s => if s = "T" then some 0 else none)
        3540).1 = .online ∧
    (get_device_status (some (tsReading "T")) (fun s => if s = "T" then some 0 else none)
        3660).1 = .offline ∧
    (get_device_status (some (tsReading "U")) (fun s => if s = "T" then some 0 else none)
        0).1 = .unknown := by
  have h1 := ((C9_device_status (some (tsReading "T"))
    (fun s => if s = "T" then some 0 else none) 3540).2.2.2.2.2 (tsReading "T") "T" 0
    rfl rfl (by decide)).1 (by decide)
  have h2 := ((C9_device_status (some (tsReading "T"))
    (fun s => if s = "T" then some 0 else none) 3660).2.2.2.2.2 (tsReading "T") "T" 0
    rfl rfl (by decide)).2 (by decide)
  have h3 := (C9_device_status (some (tsReading "U"))
    (fun s => if s = "T" then some 0 else none) 0).2.2.2.2.1 (tsReading "U") "U"
    rfl rfl (by decide)
  exact ⟨h1, h2, h3⟩

/-! ## C10: the period parameter does not influence aggregation -/

/-- C10: for any two period labels the aggregation returns identical
device, temperature, humidity and rainfall statistics and reading
counts (and the identical error outcome); period is only echoed. -/
theorem C10_period_noninterference (decode : String → Option Reading) (dev p1 p2 : String)
    (contents : List String) :
    (get_aggregated_data decode dev p1 contents).map aggregatedData =
      (get_aggregated_data decode dev p2 contents).map aggregatedData := by
  unfold get_aggregated_data
  by_cases h : gather_readings decode contents = []
  · simp [h]
  · simp only [if_neg h]
    rfl

/-! ## C6: shard parser -/

theorem parseLines_eq_some (decode : String → Option Reading) :
    ∀ lines : List String,
      (∀ l ∈ lines.filter (fun l => pyStrip l ≠ ""), (decode l).isSome) →
      parseLines decode lines =
        some ((lines.filter (fun l => pyStrip l ≠ "")).filterMap decode) := by
  intro lines
  induction lines with
  | nil => intro _; simp [parseLines]
  | cons l ls ih =>
    intro h
    by_cases hb : pyStrip l = ""
    · rw [List.filter_cons_of_neg (by simp [hb])] at h ⊢
      simp only [parseLines, if_pos hb]
      exact ih h
    · rw [List.filter_cons_of_pos (by simp [hb])] at h ⊢
      have hd : (decode l).isSome := h l (by simp)
      obtain ⟨r, hr⟩ := Option.isSome_iff_exists.mp hd
      have hrest : ∀ x ∈ ls.filter (fun l => pyStrip l ≠ ""), (decode x).isSome := by
        intro x hx
        exact h x (List.mem_cons_of_mem _ hx)
      simp only [parseLines, if_neg hb, hr, ih hrest, List.filterMap_cons]
      rfl

theorem parseLines_eq_none (decode : String → Option Reading) :
    ∀ lines : List String,
      (∃ l ∈ lines.filter (fun l => pyStrip l ≠ ""), decode l = none) →
      parseLines decode lines = none := by
  intro lines
  induction lines with
  | nil => intro h; simp at h
  | cons l ls ih =>
    intro h
    by_cases hb : pyStrip l = ""
    · rw [List.filter_cons_of_neg (by simp [hb])] at h
      simp only [parseLines, if_pos hb]
      exact ih h
    · rw [List.filter_cons_of_pos (by simp [hb])] at h
      rcases h with ⟨x, hx, hnone⟩
      rcases List.mem_cons.mp hx with hx | hx
    <;> simp only [parseLines, if_neg hb]
      · subst hx
        rw [hnone]
      · cases hd : decode l with
        | none => rfl
        | some r => rw [ih ⟨x, hx, hnone⟩]; rfl

theorem length_filterMap_of_isSome (decode : String → Option Reading) :
    ∀ ls : List String, (∀ l ∈ ls, (decode l).isSome) →
      (ls.filterMap decode).length = ls.length := by
  intro ls
  induction ls with
  | nil => intro _; rfl
  | cons l t ih =>
    intro h
    obtain ⟨r, hr⟩ := Option.isSome_iff_exists.mp (h l (by simp))
    simp [List.filterMap_cons, hr, ih (fun x hx => h x (List.mem_cons_of_mem _ hx))]

/-- C6: when every non-blank line of the shard decodes, the parser
returns one reading per non-blank line, in input order, skipping blank
lines; when any non-blank line fails to decode, the parser returns the
empty list for the whole shard (the caught exception path). -/
theorem C6_shard_parse (decode : String → Option Reading) (blob_content : String) :
    ((∀ l ∈ nonBlankLines blob_content, (decode l).isSome) →
      parse_blob_data decode blob_content = (nonBlankLines blob_content).filterMap decode ∧
      (parse_blob_data decode blob_content).length = (nonBlankLines blob_content).length) ∧
    ((∃ l ∈ nonBlankLines blob_content, decode l = none) →
      parse_blob_data decode blob_content = []) := by
  constructor
  · intro h
    have he := parseLines_eq_some decode (pySplitLines (pyStrip blob_content)) h
    unfold parse_blob_data nonBlankLines at *
    rw [he]
    exact ⟨rfl, length_filterMap_of_isSome decode _ h⟩
  · intro h
    have he := parseLines_eq_none decode (pySplitLines (pyStrip blob_content)) h
    unfold parse_blob_data
    rw [he]
    rfl

/-- C6 witness: a shard of two decodable lines separated by a blank line
parses to the two readings in order; a shard with one bad line parses to
the empty list. -/
theorem C6_shard_parse_witness :
    parse_blob_data sampleDecode "x\n\np" = (nonBlankLines "x\n\np").filterMap sampleDecode ∧
    (parse_blob_data sampleDecode "x\n\np").length = 2 ∧
    parse_blob_data sampleDecode "x\nz" = [] := by
  have h1 := (C6_shard_parse sampleDecode "x\n\np").1 (by decide)
  have h2 := (C6_shard_parse sampleDecode "x\nz").2 ⟨"z", by decide, by decide⟩
  refine ⟨h1.1, ?_, h2⟩
  rw [h1.2]
  decide

/-! ## C5: alert history truncation -/

theorem lastN_length_le (n : Nat) (l : List α) : (lastN n l).length ≤ n := by
  unfold lastN
  rw [List.length_drop]
  omega

theorem lastN_append_left (n : Nat) (xs ys : List α) :
    lastN n (lastN n xs ++ ys) = lastN n (xs ++ ys) := by
  unfold lastN
  rcases Nat.le_total xs.length n with h | h
  · rw [Nat.sub_eq_zero_of_le h, List.drop_zero]
  · have hlen : (xs.drop (xs.length - n)).length = n := by
      rw [List.length_drop]; omega
    rw [List.drop_append_eq_append_drop, List.drop_append_eq_append_drop, List.drop_drop]
    have h1 : (List.drop (xs.length - n) xs ++ ys).length = n + ys.length := by
      rw [List.length_append, hlen]
    congr 1
    · congr 1
      rw [h1, List.length_append]
      omega
    · congr 1
      rw [h1, hlen, List.length_append]
      omega

/-- Running the alert engine over a sequence of readings from a history
of at most 50 entries leaves the last 50 of the history followed by
every generated alert. -/
theorem alerts_foldl_eq (inputs : List (Reading × String)) :
    ∀ h : List Alert, h.length ≤ 50 →
      inputs.foldl (fun hist p => check_conditions_and_generate_alerts hist p.1 p.2) h =
        lastN 50 (h ++ (inputs.map (fun p => generate_new_alerts p.1 p.2)).flatten) := by
  induction inputs with
  | nil =>
    intro h hle
    simp only [List.foldl_nil, List.map_nil, List.flatten_nil, List.append_nil]
    unfold lastN
    rw [Nat.sub_eq_zero_of_le hle, List.drop_zero]
  | cons b bs ih =>
    intro h hle
    simp only [List.foldl_cons, List.map_cons, List.flatten_cons]
    show bs.foldl (fun hist p => check_conditions_and_generate_alerts hist p.1 p.2)
        (check_conditions_and_generate_alerts h b.1 b.2) = _
    rw [check_conditions_and_generate_alerts.eq_def]
    rw [ih _ (lastN_length_le 50 _)]
    rw [lastN_append_left, List.append_assoc]

/-- C5: after any engine-run appending more than 50 alerts in total for
one device, the stored history is exactly the last 50 appended alerts:
it has length 50, equals the 50 most recently appended alerts in their
original relative order, and is a suffix of the full appended
sequence. -/
theorem C5_alert_history_truncation (inputs : List (Reading × String))
    (h50 : 50 < ((inputs.map (fun p => generate_new_alerts p.1 p.2)).flatten).length) :
    inputs.foldl (fun hist p => check_conditions_and_generate_alerts hist p.1 p.2) [] =
      lastN 50 ((inputs.map (fun p => generate_new_alerts p.1 p.2)).flatten) ∧
    (inputs.foldl (fun hist p => check_conditions_and_generate_alerts hist p.1 p.2) []).length
      = 50 ∧
    ∃ dropped,
      dropped ++ inputs.foldl (fun hist p => check_conditions_and_generate_alerts hist p.1 p.2) []
        = (inputs.map (fun p => generate_new_alerts p.1 p.2)).flatten := by
  have h0 := alerts_foldl_eq inputs [] (by simp)
  simp only [List.nil_append] at h0
  refine ⟨h0, ?_, ?_⟩
  · rw [h0]
    unfold lastN
    rw [List.length_drop]
    omega
  · refine ⟨((inputs.map (fun p => generate_new_alerts p.1 p.2)).flatten).take
      (((inputs.map (fun p => generate_new_alerts p.1 p.2)).flatten).length - 50), ?_⟩
    rw [h0]
    exact List.take_append_drop _ _

/-- 51 frost-triggering readings in a row. -/
def frostInputs : List (Reading × String) := List.replicate 51 (tempReading (-1), "T")

/-- C5 witness: 51 frost alerts appended one per tick leave a history of
exactly the last 50. -/
theorem C5_alert_history_truncation_witness :
    50 < ((frostInputs.map (fun p => generate_new_alerts p.1 p.2)).flatten).length ∧
    frostInputs.foldl (fun hist p => check_conditions_and_generate_alerts hist p.1 p.2) [] =
      lastN 50 ((frostInputs.map (fun p => generate_new_alerts p.1 p.2)).flatten) ∧
    (frostInputs.foldl (fun hist p => check_conditions_and_generate_alerts hist p.1 p.2)
      []).length = 50 := by
  have h := C5_alert_history_truncation frostInputs (by decide)
  exact ⟨by decide, h.1, h.2.1⟩

/-! ## C7: aggregation with missing fields and the NoData outcome -/

theorem round2_zero : round2 0 = 0 := by decide

theorem filterMap_none_of_all {f : Reading → Option ℚ} :
    ∀ l : List Reading, (∀ r ∈ l, f r = none) → l.filterMap f = [] := by
  intro l h
  induction l with
  | nil => rfl
  | cons a t ih =>
    simp only [List.filterMap_cons, h a (by simp)]
    exact ih (fun x hx => h x (List.mem_cons_of_mem _ hx))

/-- C7 (amended): a reading missing a numeric field is excluded from
the statistics of that field while still counting toward readings_count and
contributing its present fields; when readings exist but none carry a
field, the result for that field is zero-valued rather than an error; and the
NoData error is raised exactly when the gathered reading list is empty —
whether because the device has no shards or because its shards yield no
readings (the source does not distinguish the two). -/
theorem C7_aggregation_fields (decode : String → Option Reading) (dev p : String) :
    (∀ contents : List String,
      ((∃ e, get_aggregated_data decode dev p contents = .error e) ↔
        gather_readings decode contents = []) ∧
      (gather_readings decode contents = [] →
        get_aggregated_data decode dev p contents = .error "No data found")) ∧
    (∀ (all : List Reading) (r : Reading),
      (aggregate_readings dev p (all ++ [r])).readings_count =
        (aggregate_readings dev p all).readings_count + 1 ∧
      (r.temperature = none →
        (aggregate_readings dev p (all ++ [r])).temperature =
          (aggregate_readings dev p all).temperature) ∧
      (r.rainfall = none →
        (aggregate_readings dev p (all ++ [r])).rainfall_total =
          (aggregate_readings dev p all).rainfall_total ∧
        (aggregate_readings dev p (all ++ [r])).rainfall_avg =
          (aggregate_readings dev p all).rainfall_avg) ∧
      (∀ h, r.humidity = some h →
        (all ++ [r]).filterMap (fun x => x.humidity) =
          all.filterMap (fun x => x.humidity) ++ [h])) ∧
    (∀ all : List Reading, all ≠ [] → (∀ r ∈ all, r.temperature = none) →
      (aggregate_readings dev p all).temperature = ⟨0, 0, 0⟩) ∧
    (∀ all : List Reading, all ≠ [] → (∀ r ∈ all, r.rainfall = none) →
      (aggregate_readings dev p all).rainfall_total = 0 ∧
      (aggregate_readings dev p all).rainfall_avg = 0) := by
  refine ⟨?_, ?_, ?_, ?_⟩
  · intro contents
    unfold get_aggregated_data
    by_cases h : gather_readings decode contents = []
    · simp [h]
    · simp [h]
  · intro all r
    refine ⟨?_, ?_, ?_, ?_⟩
    · simp [aggregate_readings]
    · intro h
      simp [aggregate_readings, List.filterMap_append, h]
    · intro h
      constructor <;> simp [aggregate_readings, List.filterMap_append, h]
    · intro hv h
      simp [List.filterMap_append, h]
  · intro all hne h
    have ht : all.filterMap (fun r => r.temperature) = [] := filterMap_none_of_all all h
    simp [aggregate_readings, ht]
  · intro all hne h
    have ht : all.filterMap (fun r => r.rainfall) = [] := filterMap_none_of_all all h
    simp [aggregate_readings, ht, round2_zero]

/-- C7 counterexample: a device with one shard whose content is a single
blank character has a shard yet yields no readings; the aggregation
signals the NoData error all the same, refuting the claim that NoData is
raised only with zero shards and is distinguishable from empty
shards. -/
theorem C7_counterexample :
    get_aggregated_data sampleDecode "dev" "day" [" "] = .error "No data found" ∧
    ([" "] : List String) ≠ [] := by
  exact ⟨rfl, by decide⟩

/-- C7 witness: appending a temperature-free reading leaves the
temperature statistics unchanged while incrementing the count; an
all-temperature-free nonempty reading list yields the zero-valued
statistics; an empty store yields the NoData error. -/
theorem C7_aggregation_fields_witness :
    (aggregate_readings "d" "day" ([tempReading 7] ++ [tsReading "t"])).temperature =
      (aggregate_readings "d" "day" [tempReading 7]).temperature ∧
    (aggregate_readings "d" "day" ([tempReading 7] ++ [tsReading "t"])).readings_count =
      (aggregate_readings "d" "day" [tempReading 7]).readings_count + 1 ∧
    (aggregate_readings "d" "day" [tsReading "t"]).temperature = ⟨0, 0, 0⟩ ∧
    get_aggregated_data sampleDecode "d" "day" [] = .error "No data found" := by
  have h := C7_aggregation_fields sampleDecode "d" "day"
  exact ⟨(h.2.1 [tempReading 7] (tsReading "t")).2.1 rfl,
    (h.2.1 [tempReading 7] (tsReading "t")).1,
    h.2.2.1 [tsReading "t"] (by decide) (by decide),
    (h.1 []).2 rfl⟩

/-! ## C1: Latest-State Cache timestamp ordering -/

theorem readingLe_refl (a : Reading) : readingLe a a = true := by
  simp [readingLe, strLt_irrefl]

theorem readingLe_trans {a b c : Reading} (h1 : readingLe a b = true)
    (h2 : readingLe b c = true) : readingLe a c = true := by
  simp only [readingLe, Bool.not_eq_true'] at h1 h2 ⊢
  exact strLt_le_trans h1 h2

theorem readingLe_total (a b : Reading) : (readingLe a b || readingLe b a) = true := by
  simp only [readingLe, Bool.or_eq_true, Bool.not_eq_true']
  exact strLt_le_total (readingTs b) (readingTs a)

theorem pairwise_mergeSort_readingLe (l : List Reading) :
    (l.mergeSort readingLe).Pairwise (fun a b => readingLe a b = true) :=
  @List.sorted_mergeSort Reading readingLe
    (fun _ _ _ hab hbc => readingLe_trans hab hbc) readingLe_total l

theorem pairwise_le_getLast :
    ∀ {l : List Reading} {x : Reading}, l.Pairwise (fun a b => readingLe a b = true) →
      l.getLast? = some x → ∀ r ∈ l, readingLe r x = true := by
  intro l
  induction l with
  | nil =>
    intro x _ hx
    exact absurd hx (by simp)
  | cons a as ih =>
    intro x hp hx r hr
    cases as with
    | nil =>
      simp only [List.getLast?_singleton, Option.some.injEq] at hx
      subst hx
      simp only [List.mem_singleton] at hr
      subst hr
      exact readingLe_refl r
    | cons b bs =>
      rw [List.getLast?_cons_cons] at hx
      rcases List.mem_cons.mp hr with hr | hr
      · subst hr
        exact (List.pairwise_cons.mp hp).1 x (List.mem_of_mem_getLast? hx)
      · exact ih (List.pairwise_cons.mp hp).2 hx r hr

theorem strLt_to_empty (s : String) : strLt s "" = false := by
  show charsLt s.data [] = false
  cases s.data with
  | nil => rfl
  | cons c cs => rfl

theorem mergeSort_nil_of_getLast?_none {rs : List Reading}
    (h : (rs.mergeSort readingLe).getLast? = none) : rs = [] := by
  have hms := List.getLast?_eq_none_iff.mp h
  have hlen := (List.mergeSort_perm rs readingLe).length_eq
  rw [hms] at hlen
  exact List.length_eq_zero.mp hlen.symm

theorem poll_device_update_of_getLast?_none {rs : List Reading} {c : Option Reading}
    (h : (rs.mergeSort readingLe).getLast? = none) : poll_device_update rs c = c := by
  unfold poll_device_update
  rw [h]

theorem poll_device_update_of_getLast?_some {rs : List Reading} {c : Option Reading}
    {latest : Reading} (h : (rs.mergeSort readingLe).getLast? = some latest) :
    poll_device_update rs c =
      if strLt (cacheTs c) (readingTs latest) || decide (cacheTs c = "") then some latest
      else c := by
  unfold poll_device_update
  rw [h]

theorem cacheStep_monotone (op : CacheOp) (c : Option Reading) :
    strLt (cacheTs (cacheStep c op)) (cacheTs c) = false := by
  cases op with
  | poll rs =>
    show strLt (cacheTs (poll_device_update rs c)) (cacheTs c) = false
    cases hl : (rs.mergeSort readingLe).getLast? with
    | none =>
      rw [poll_device_update_of_getLast?_none hl]
      exact strLt_irrefl _
    | some latest =>
      rw [poll_device_update_of_getLast?_some hl]
      by_cases hcond : (strLt (cacheTs c) (readingTs latest) || decide (cacheTs c = "")) = true
      · rw [if_pos hcond]
        rcases Bool.or_eq_true_iff.mp hcond with hlt | hemp
        · show strLt (readingTs latest) (cacheTs c) = false
          exact strLt_asymm hlt
        · have he : cacheTs c = "" := of_decide_eq_true hemp
          rw [he]
          exact strLt_to_empty _
      · rw [if_neg hcond]
        exact strLt_irrefl _
  | fetch decode blobs =>
    cases c with
    | some r => exact strLt_irrefl _
    | none =>
      show strLt (cacheTs (get_current_reading decode blobs none)) "" = false
      exact strLt_to_empty _

theorem cacheRun_monotone : ∀ (ops : List CacheOp) (c : Option Reading),
    strLt (cacheTs (cacheRun c ops)) (cacheTs c) = false := by
  intro ops
  induction ops with
  | nil =>
    intro c
    exact strLt_irrefl _
  | cons op rest ih =>
    intro c
    show strLt (cacheTs (cacheRun (cacheStep c op) rest)) (cacheTs c) = false
    exact strLt_le_trans (cacheStep_monotone op c) (ih (cacheStep c op))

theorem poll_update_observes (rs : List Reading) (c : Option Reading) :
    (∀ r ∈ rs, strLt (cacheTs (poll_device_update rs c)) (readingTs r) = false) ∧
    (cacheTs (poll_device_update rs c) = cacheTs c ∨
      cacheTs (poll_device_update rs c) ∈ rs.map readingTs) := by
  cases hl : (rs.mergeSort readingLe).getLast? with
  | none =>
    have hnil := mergeSort_nil_of_getLast?_none hl
    subst hnil
    rw [poll_device_update_of_getLast?_none hl]
    exact ⟨fun r hr => absurd hr (by simp), Or.inl rfl⟩
  | some latest =>
    rw [poll_device_update_of_getLast?_some hl]
    have hpw := pairwise_mergeSort_readingLe rs
    have hmax := pairwise_le_getLast hpw hl
    have hlmem : latest ∈ rs :=
      (List.mergeSort_perm rs readingLe).mem_iff.mp (List.mem_of_mem_getLast? hl)
    by_cases hcond : (strLt (cacheTs c) (readingTs latest) || decide (cacheTs c = "")) = true
    · rw [if_pos hcond]
      constructor
      · intro r hr
        have hr2 : r ∈ rs.mergeSort readingLe :=
          (List.mergeSort_perm rs readingLe).mem_iff.mpr hr
        have hle : strLt (readingTs latest) (readingTs r) = false := by
          have hv := hmax r hr2
          simpa [readingLe, Bool.not_eq_true'] using hv
        exact hle
      · exact Or.inr (List.mem_map_of_mem readingTs hlmem)
    · rw [if_neg hcond]
      have hparts := Bool.or_eq_false_iff.mp (Bool.of_not_eq_true hcond)
      constructor
      · intro r hr
        have hr2 : r ∈ rs.mergeSort readingLe :=
          (List.mergeSort_perm rs readingLe).mem_iff.mpr hr
        have hle : strLt (readingTs latest) (readingTs r) = false := by
          have hv := hmax r hr2
          simpa [readingLe, Bool.not_eq_true'] using hv
        exact strLt_le_trans hle hparts.1
      · exact Or.inl rfl

theorem poll_update_stale (rs : List Reading) (c : Option Reading)
    (hall : ∀ r ∈ rs, strLt (cacheTs c) (readingTs r) = false) (hne : cacheTs c ≠ "") :
    poll_device_update rs c = c := by
  cases hl : (rs.mergeSort readingLe).getLast? with
  | none => exact poll_device_update_of_getLast?_none hl
  | some latest =>
    rw [poll_device_update_of_getLast?_some hl]
    have hlmem : latest ∈ rs :=
      (List.mergeSort_perm rs readingLe).mem_iff.mp (List.mem_of_mem_getLast? hl)
    have h1 : strLt (cacheTs c) (readingTs latest) = false := hall latest hlmem
    simp [h1, hne]

/-- C1 counterexample: with an empty cache slot, a direct synchronous
fetch caches the final reading of the most recently modified shard even
when an earlier line of that shard carries a strictly greater timestamp,
so after the operation the cached entry does not hold the reading with
the maximum observed timestamp. -/
theorem C1_counterexample :
    cacheRun none [CacheOp.fetch sampleDecode [⟨0, "q\np"⟩]] =
      some (tsReading "2025-01-01T00:00:00Z") ∧
    "2025-01-02T00:00:00Z" ∈ opObservedTs (CacheOp.fetch sampleDecode [⟨0, "q\np"⟩]) ∧
    strLt (cacheTs (cacheRun none [CacheOp.fetch sampleDecode [⟨0, "q\np"⟩]]))
      "2025-01-02T00:00:00Z" = true := by
  exact ⟨rfl, by decide, by decide⟩

/-- C1 (amended): the cached timestamp is monotonically non-decreasing
across every cache-writing operation and over any operation sequence; a
Poller update never regresses the cache and leaves the cached timestamp
at the maximum of the previous cached timestamp and every delivered
timestamp, ignoring entirely-stale deliveries when a nonempty timestamp
is cached; and the direct fetch writes only to an empty slot, but the
entry it writes is the final reading of the freshest shard, which need
not carry the maximum timestamp it observed (see the counterexample). -/
theorem C1_cache_monotonicity_amended :
    (∀ (ops : List CacheOp) (c : Option Reading),
      strLt (cacheTs (cacheRun c ops)) (cacheTs c) = false) ∧
    (∀ (op : CacheOp) (c : Option Reading),
      strLt (cacheTs (cacheStep c op)) (cacheTs c) = false) ∧
    (∀ (rs : List Reading) (c : Option Reading),
      (∀ r ∈ rs, strLt (cacheTs (poll_device_update rs c)) (readingTs r) = false) ∧
      (cacheTs (poll_device_update rs c) = cacheTs c ∨
        cacheTs (poll_device_update rs c) ∈ rs.map readingTs)) ∧
    (∀ (rs : List Reading) (c : Option Reading),
      (∀ r ∈ rs, strLt (cacheTs c) (readingTs r) = false) → cacheTs c ≠ "" →
      poll_device_update rs c = c) ∧
    (∀ (decode : String → Option Reading) (blobs : List Blob) (r : Reading),
      get_current_reading decode blobs (some r) = some r) :=
  ⟨cacheRun_monotone, cacheStep_monotone, poll_update_observes, poll_update_stale,
    fun _ _ _ => rfl⟩

/-- C1 witness: a Poller delivery that is entirely stale leaves the
cache unchanged, a direct fetch never touches an occupied slot, and a
fresher Poller delivery advances the cached timestamp without ever
decreasing it. -/
theorem C1_cache_monotonicity_amended_witness :
    poll_device_update [tsReading "2025-01-01T00:00:00Z"]
        (some (tsReading "2025-01-02T00:00:00Z")) =
      some (tsReading "2025-01-02T00:00:00Z") ∧
    get_current_reading sampleDecode [⟨0, "p"⟩] (some (tsReading "2025-01-02T00:00:00Z")) =
      some (tsReading "2025-01-02T00:00:00Z") ∧
    strLt (cacheTs (cacheRun (some (tsReading "2025-01-01T00:00:00Z"))
        [CacheOp.poll [tsReading "2025-01-02T00:00:00Z"]]))
      (cacheTs (some (tsReading "2025-01-01T00:00:00Z"))) = false := by
  have h := C1_cache_monotonicity_amended
  exact ⟨h.2.2.2.1 _ _ (by decide) (by decide), h.2.2.2.2 sampleDecode _ _, h.1 _ _⟩

/-! ## C8: history window -/

theorem inHistoryRange_none_none (t : String) : inHistoryRange none none t = true := rfl

theorem foldl_append_readings (f : BlobEntry → List Reading) :
    ∀ (bs : List BlobEntry) (acc : List Reading),
      bs.foldl (fun acc b => acc ++ f b) acc = acc ++ (bs.map f).flatten := by
  intro bs
  induction bs with
  | nil =>
    intro acc
    simp
  | cons b t ih =>
    intro acc
    simp only [List.foldl_cons, List.map_cons, List.flatten_cons, ih, List.append_assoc]

theorem mem_history_blob_readings {decode : String → Option Reading}
    {from_date to_date : Option String} {b : BlobEntry} {x : Reading}
    (hx : x ∈ history_blob_readings decode from_date to_date b) :
    inHistoryRange from_date to_date (readingTs x) = true := by
  unfold history_blob_readings at hx
  by_cases hf : (from_date.isSome || to_date.isSome) = true
  · rw [if_pos hf] at hx
    exact (List.mem_filter.mp hx).2
  · rcases from_date with _ | f
    · rcases to_date with _ | t2
      · exact inHistoryRange_none_none _
      · simp at hf
    · simp at hf

theorem mem_history_gathered {decode : String → Option Reading} {device_id : String}
    {from_date to_date : Option String} {store : List BlobEntry} {x : Reading}
    (hx : x ∈ history_gathered decode device_id from_date to_date store) :
    inHistoryRange from_date to_date (readingTs x) = true := by
  unfold history_gathered at hx
  rw [foldl_append_readings] at hx
  simp only [List.nil_append, List.mem_flatten, List.mem_map] at hx
  rcases hx with ⟨l, ⟨b, _, hb⟩, hxl⟩
  subst hb
  exact mem_history_blob_readings hxl

/-- C8 (amended): for a positive limit, the returned history window is
the last limit entries of the stable ascending-by-timestamp sort of the
readings gathered from the shards the endpoint consults (when from is
given, only shards under the from-date day directory): the window is
sorted ascending by timestamp, its length is the minimum of limit and
the number of gathered in-range readings, every omitted gathered reading
has a timestamp at most that of every returned reading, every returned
reading lies in the inclusive [from, to] range, and window plus omitted
readings are exactly the gathered readings. -/
theorem C8_history_window (decode : String → Option Reading) (dev : String)
    (from_date to_date : Option String) (limit : Int) (store : List BlobEntry)
    (hpos : 0 < limit) :
    ∃ dropped,
      dropped ++ get_history decode dev from_date to_date limit store =
        (history_gathered decode dev from_date to_date store).mergeSort readingLe ∧
      (dropped ++ get_history decode dev from_date to_date limit store).Perm
        (history_gathered decode dev from_date to_date store) ∧
      (get_history decode dev from_date to_date limit store).Pairwise
        (fun a b => readingLe a b = true) ∧
      (get_history decode dev from_date to_date limit store).length =
        min limit.toNat (history_gathered decode dev from_date to_date store).length ∧
      (∀ y ∈ dropped, ∀ x ∈ get_history decode dev from_date to_date limit store,
        readingLe y x = true) ∧
      (∀ x ∈ get_history decode dev from_date to_date limit store,
        inHistoryRange from_date to_date (readingTs x) = true) := by
  have hgh : get_history decode dev from_date to_date limit store =
      ((history_gathered decode dev from_date to_date store).mergeSort readingLe).drop
        (((history_gathered decode dev from_date to_date store).mergeSort readingLe).length -
          limit.toNat) := by
    unfold get_history pySliceLast
    rw [if_pos hpos]
  refine ⟨((history_gathered decode dev from_date to_date store).mergeSort readingLe).take
    (((history_gathered decode dev from_date to_date store).mergeSort readingLe).length -
      limit.toNat), ?_, ?_, ?_, ?_, ?_, ?_⟩
  · rw [hgh]
    exact List.take_append_drop _ _
  · rw [hgh, List.take_append_drop]
    exact List.mergeSort_perm _ _
  · rw [hgh]
    exact List.Pairwise.sublist (List.drop_sublist _ _) (pairwise_mergeSort_readingLe _)
  · rw [hgh, List.length_drop]
    have hlen := (List.mergeSort_perm (history_gathered decode dev from_date to_date store)
      readingLe).length_eq
    omega
  · have hp := pairwise_mergeSort_readingLe (history_gathered decode dev from_date to_date store)
    rw [← List.take_append_drop
      (((history_gathered decode dev from_date to_date store).mergeSort readingLe).length -
        limit.toNat)
      ((history_gathered decode dev from_date to_date store).mergeSort readingLe)] at hp
    rcases List.pairwise_append.mp hp with ⟨_, _, hcross⟩
    intro y hy x hx
    rw [hgh] at hx
    exact hcross y hy x hx
  · intro x hx
    rw [hgh] at hx
    have hx2 : x ∈ (history_gathered decode dev from_date to_date store).mergeSort readingLe :=
      List.mem_of_mem_drop hx
    have hx3 : x ∈ history_gathered decode dev from_date to_date store :=
      (List.mergeSort_perm _ readingLe).mem_iff.mp hx2
    exact mem_history_gathered hx3

/-- The two-day shard store of the C8 counterexample: the second shard
holds the fresher reading. -/
def store0 : List BlobEntry :=
  [⟨"d/2025/01/01/a", "p"⟩, ⟨"d/2025/01/02/a", "q"⟩]

/-- C8 counterexample: with from 2025-01-01 and to 2025-01-03, the
reading of 2025-01-02 is stored for the device and lies inside the
inclusive range, yet the endpoint returns only the 2025-01-01 reading:
the blob listing is narrowed to the from-date day directory, so shards
of later in-range days are never consulted. -/
theorem C8_counterexample :
    get_history sampleDecode "d" (some "2025-01-01") (some "2025-01-03") 10 store0 =
      [tsReading "2025-01-01T00:00:00Z"] ∧
    tsReading "2025-01-02T00:00:00Z" ∈ parse_blob_data sampleDecode "q" ∧
    strStartsWith "d/2025/01/02/a" "d/" = true ∧
    inHistoryRange (some "2025-01-01") (some "2025-01-03") "2025-01-02T00:00:00Z" = true ∧
    tsReading "2025-01-02T00:00:00Z" ∉
      get_history sampleDecode "d" (some "2025-01-01") (some "2025-01-03") 10 store0 := by
  decide

/-- C8 witness: a store of two readings in one consulted shard returns
them sorted ascending within the window. -/
theorem C8_history_window_witness :
    get_history sampleDecode "d" none none 10 [⟨"d/a", "q\np"⟩] =
      [tsReading "2025-01-01T00:00:00Z", tsReading "2025-01-02T00:00:00Z"] ∧
    (get_history sampleDecode "d" none none 10 [⟨"d/a", "q\np"⟩]).length =
      min (10 : Int).toNat (history_gathered sampleDecode "d" none none [⟨"d/a", "q\np"⟩]).length ∧
    (get_history sampleDecode "d" none none 10 [⟨"d/a", "q\np"⟩]).Pairwise
      (fun a b => readingLe a b = true) := by
  have h := C8_history_window sampleDecode "d" none none 10 [⟨"d/a", "q\np"⟩] (by decide)
  rcases h with ⟨dropped, _, _, hpw, hlen, _, _⟩
  exact ⟨by decide, hlen, hpw⟩
